import Mathlib

/-!
Verification of the UPower D-Bus client wrapper (src/upower_api/wrapper.py).

The Python class UPowerWrapper is shallowly embedded. Remote behaviour of
the message bus is modelled as explicit data: a bus maps (service name,
object path) to introspection data, an introspection node lists the
interfaces the remote object implements, and a resolved interface maps a
dbus_next accessor name (get_state, call_get_data, ...) to the outcome of
that remote read or call. Fallible Python code is embedded in
Except PyError; every constructor of PyError models a subclass of the
Python Exception class. Python float values are modelled as rationals:
the wrapper never computes with floats, it only passes them through.
-/

/-- Python exceptions the wrapper can raise or observe. All constructors
model subclasses of Exception, so the broad
except (InterfaceNotFoundError, Exception) clause in the source catches
every one of them. -/
inductive PyError where
  | runtimeError (msg : String)
  | interfaceNotFoundError
  | transportError
  | keyError (k : Int)
  | typeError
  | valueError
deriving DecidableEq

/-- Dynamic Python values as delivered by dbus_next property reads and
method calls. -/
inductive PyValue where
  | none
  | bool (b : Bool)
  | int (n : Int)
  | float (q : Rat)
  | str (s : String)
  | list (xs : List PyValue)

/-- Python truthiness, the builtin bool conversion applied by the source
in is_lid_present, is_lid_closed, on_battery and is_present. -/
def py_bool : PyValue → Bool
  | PyValue.none => false
  | PyValue.bool b => b
  | PyValue.int n => decide (n ≠ 0)
  | PyValue.float q => decide (q ≠ 0)
  | PyValue.str s => decide (s ≠ "")
  | PyValue.list xs => !xs.isEmpty

/-- Numeric value of a Python object when it is a number; in Python,
bool is a numeric type with True == 1 and False == 0. -/
def PyValue.numVal : PyValue → Option Rat
  | PyValue.bool b => some (if b then 1 else 0)
  | PyValue.int n => some (n : Rat)
  | PyValue.float q => some q
  | _ => Option.none

/-- The comparison state == 1 from is_charging. Python numbers compare by
value across bool, int and float; a non-numeric value is never equal to
the int literal 1. This is the only equality test the source performs. -/
def pyEqOne (a : PyValue) : Bool :=
  match a.numVal with
  | some x => decide (x = 1)
  | Option.none => false

/-- The builtin int conversion used by get_device_state. Floats truncate
toward zero, strings are parsed, None and lists raise TypeError. -/
def py_int : PyValue → Except PyError Int
  | PyValue.int n => Except.ok n
  | PyValue.bool b => Except.ok (if b then 1 else 0)
  | PyValue.float q => Except.ok (Int.tdiv q.num q.den)
  | PyValue.str s =>
      match s.toInt? with
      | some n => Except.ok n
      | Option.none => Except.error PyError.valueError
  | _ => Except.error PyError.typeError

/-- Python subscript d[k] on an int-keyed dict of strings: KeyError when
the key is absent. -/
def dict_getitem (d : Int → Option String) (k : Int) : Except PyError String :=
  match d k with
  | some v => Except.ok v
  | Option.none => Except.error (PyError.keyError k)

/-- A resolved proxy interface: remote property reads and method calls,
keyed by the dbus_next accessor name. Each access is a bus round trip
that can fail. -/
structure DBusInterface where
  member : String → Except PyError PyValue

/-- Introspection data of one remote object: the named interfaces the
object implements. -/
structure NodeIntrospection where
  interfaces : List (String × DBusInterface)

/-- The connected message bus handle. introspect takes the destination
service name and the object path and can fail with any transport error. -/
structure MessageBus where
  introspect : String → String → Except PyError NodeIntrospection

/-- A proxy object built from introspection data. -/
structure ProxyObject where
  bus_name : String
  path : String
  introspection : NodeIntrospection

/-- bus.get_proxy_object: pure packaging of introspection data. -/
def MessageBus.get_proxy_object (_bus : MessageBus) (bus_name path : String)
    (introspection : NodeIntrospection) : ProxyObject :=
  { bus_name := bus_name, path := path, introspection := introspection }

/-- proxy.get_interface(name): raises InterfaceNotFoundError when the
remote object does not implement the named interface. -/
def ProxyObject.get_interface (proxy : ProxyObject) (name : String) :
    Except PyError DBusInterface :=
  match proxy.introspection.interfaces.lookup name with
  | some iface => Except.ok iface
  | Option.none => Except.error PyError.interfaceNotFoundError

/-- Python truthiness of a proxy interface object: dbus_next
ProxyInterface defines neither a length nor a boolean conversion, so
bool(interface) is always True. -/
def DBusInterface.truthy (_ : DBusInterface) : Bool := true

/-- Class constant UPOWER_PATH. -/
def UPOWER_PATH : String := "/org/freedesktop/UPower"

/-- Class constant UPOWER_MANAGER_IFACE, also used as the bus service name. -/
def UPOWER_MANAGER_IFACE : String := "org.freedesktop.UPower"

/-- Class constant UPOWER_DEVICE_IFACE. -/
def UPOWER_DEVICE_IFACE : String := "org.freedesktop.UPower.Device"

/-- Class constant WAKEUPS_PATH. -/
def WAKEUPS_PATH : String := "/org/freedesktop/UPower/Wakeups"

/-- Class constant IFACE_WAKEUPS. -/
def IFACE_WAKEUPS : String := "org.freedesktop.UPower.Wakeups"

/-- The STATE_MAP class dict, a finite partial map from UPower state
codes to readable labels. -/
def STATE_MAP (k : Int) : Option String :=
  if k = 0 then some "Unknown"
  else if k = 1 then some "Charging"
  else if k = 2 then some "Discharging"
  else if k = 3 then some "Empty"
  else if k = 4 then some "Fully Charged"
  else if k = 5 then some "Pending Charge"
  else if k = 6 then some "Pending Discharge"
  else Option.none

/-- The wrapper object: its only attribute is the optional bus handle. -/
structure UPowerWrapper where
  bus : Option MessageBus

/-- The constructor: the bus attribute starts out as None. -/
def UPowerWrapper.init : UPowerWrapper := { bus := Option.none }

/-- connect: store the freshly connected system bus handle. The transport
connect call itself belongs to the external collaborator; its result is
passed in. -/
def UPowerWrapper.connect (self : UPowerWrapper) (sys_bus : MessageBus) : UPowerWrapper :=
  { self with bus := some sys_bus }

/-- Helper _get_interface: raise RuntimeError when the bus is absent,
else introspect the path under the well-known service name, build a
proxy object and extract the named interface. -/
def UPowerWrapper._get_interface (self : UPowerWrapper) (path iface_name : String) :
    Except PyError DBusInterface :=
  match self.bus with
  | Option.none => Except.error (PyError.runtimeError "Bus is not connected")
  | some bus => do
      let introspection ← bus.introspect UPOWER_MANAGER_IFACE path
      let proxy := bus.get_proxy_object UPOWER_MANAGER_IFACE path introspection
      proxy.get_interface iface_name

/-- Graceful helper _get_wakeups_interface: the broad except clause
(InterfaceNotFoundError, Exception) converts every failure into None. -/
def UPowerWrapper._get_wakeups_interface (self : UPowerWrapper) : Option DBusInterface :=
  match self._get_interface WAKEUPS_PATH IFACE_WAKEUPS with
  | Except.ok iface => some iface
  | Except.error _ => Option.none

/-- get_devices: enumerate all power device object paths. -/
def UPowerWrapper.get_devices (self : UPowerWrapper) : Except PyError PyValue := do
  let interface ← self._get_interface UPOWER_PATH UPOWER_MANAGER_IFACE
  interface.member "call_enumerate_devices"

/-- get_display_device: fetch the synthetic display device path. -/
def UPowerWrapper.get_display_device (self : UPowerWrapper) : Except PyError PyValue := do
  let interface ← self._get_interface UPOWER_PATH UPOWER_MANAGER_IFACE
  interface.member "call_get_display_device"

/-- get_critical_action: fetch the critical battery action descriptor. -/
def UPowerWrapper.get_critical_action (self : UPowerWrapper) : Except PyError PyValue := do
  let interface ← self._get_interface UPOWER_PATH UPOWER_MANAGER_IFACE
  interface.member "call_get_critical_action"

/-- get_manager_status: four independent property reads aggregated into
one dict, in the literal key order of the source. -/
def UPowerWrapper.get_manager_status (self : UPowerWrapper) :
    Except PyError (List (String × PyValue)) := do
  let interface ← self._get_interface UPOWER_PATH UPOWER_MANAGER_IFACE
  let on_battery ← interface.member "get_on_battery"
  let lid_closed ← interface.member "get_lid_is_closed"
  let daemon_ver ← interface.member "get_daemon_version"
  let lid_present ← interface.member "get_lid_is_present"
  pure [("on_battery", on_battery), ("lid_closed", lid_closed),
        ("daemon_ver", daemon_ver), ("lid_present", lid_present)]

/-- get_device_percentage: a single property read, returned unconverted. -/
def UPowerWrapper.get_device_percentage (self : UPowerWrapper) (obj : String) :
    Except PyError PyValue := do
  let interface ← self._get_interface obj UPOWER_DEVICE_IFACE
  interface.member "get_percentage"

/-- is_lid_present: one property read coerced with bool. -/
def UPowerWrapper.is_lid_present (self : UPowerWrapper) : Except PyError Bool := do
  let interface ← self._get_interface UPOWER_PATH UPOWER_MANAGER_IFACE
  let v ← interface.member "get_lid_is_present"
  pure (py_bool v)

/-- is_lid_closed: one property read coerced with bool. -/
def UPowerWrapper.is_lid_closed (self : UPowerWrapper) : Except PyError Bool := do
  let interface ← self._get_interface UPOWER_PATH UPOWER_MANAGER_IFACE
  let v ← interface.member "get_lid_is_closed"
  pure (py_bool v)

/-- on_battery: one property read coerced with bool. -/
def UPowerWrapper.on_battery (self : UPowerWrapper) : Except PyError Bool := do
  let interface ← self._get_interface UPOWER_PATH UPOWER_MANAGER_IFACE
  let v ← interface.member "get_on_battery"
  pure (py_bool v)

/-- is_present: one property read coerced with bool. -/
def UPowerWrapper.is_present (self : UPowerWrapper) : Except PyError Bool := do
  let interface ← self._get_interface UPOWER_PATH UPOWER_MANAGER_IFACE
  let v ← interface.member "get_is_present"
  pure (py_bool v)

/-- has_wakeup_capabilities: graceful resolution, False when absent. -/
def UPowerWrapper.has_wakeup_capabilities (self : UPowerWrapper) : Except PyError PyValue :=
  match self._get_wakeups_interface with
  | some interface => interface.member "get_has_capability"
  | Option.none => Except.ok (PyValue.bool false)

/-- get_wakeup_data: graceful resolution, empty list when absent. -/
def UPowerWrapper.get_wakeup_data (self : UPowerWrapper) : Except PyError PyValue :=
  match self._get_wakeups_interface with
  | some interface => interface.member "call_get_data"
  | Option.none => Except.ok (PyValue.list [])

/-- get_wakeup_total: graceful resolution, 0 when absent. -/
def UPowerWrapper.get_wakeup_total (self : UPowerWrapper) : Except PyError PyValue :=
  match self._get_wakeups_interface with
  | some interface => interface.member "call_get_total"
  | Option.none => Except.ok (PyValue.int 0)

/-- is_charging: resolve the device interface (a raised resolution error
propagates), then compare the raw state code with 1. The else branch of
the source returns False, but a resolved proxy interface is always
truthy, so that branch is unreachable. -/
def UPowerWrapper.is_charging (self : UPowerWrapper) (obj : String) :
    Except PyError Bool := do
  let interface ← self._get_interface obj UPOWER_DEVICE_IFACE
  if interface.truthy then do
    let state ← interface.member "get_state"
    pure (pyEqOne state)
  else
    pure false

/-- get_device_state: read the raw state, convert with int, and subscript
STATE_MAP, so an unmapped code raises KeyError. -/
def UPowerWrapper.get_device_state (self : UPowerWrapper) (obj : String) :
    Except PyError String := do
  let interface ← self._get_interface obj UPOWER_DEVICE_IFACE
  let raw ← interface.member "get_state"
  let state ← py_int raw
  dict_getitem STATE_MAP state

/-- get_full_device_information: resolve the device interface once, then
38 sequential property reads, assembled into one dict in the literal key
order of the source. -/
def UPowerWrapper.get_full_device_information (self : UPowerWrapper) (obj : String) :
    Except PyError (List (String × PyValue)) := do
  let device_interface ← self._get_interface obj UPOWER_DEVICE_IFACE
  let hasHistory ← device_interface.member "get_has_history"
  let hasStatistics ← device_interface.member "get_has_statistics"
  let isPresent ← device_interface.member "get_is_present"
  let isRechargable ← device_interface.member "get_is_rechargeable"
  let online ← device_interface.member "get_online"
  let powersupply ← device_interface.member "get_power_supply"
  let capacity ← device_interface.member "get_capacity"
  let chargecycles ← device_interface.member "get_charge_cycles"
  let energy ← device_interface.member "get_energy"
  let energyempty ← device_interface.member "get_energy_empty"
  let energyfull ← device_interface.member "get_energy_full"
  let energyfulldesign ← device_interface.member "get_energy_full_design"
  let energyrate ← device_interface.member "get_energy_rate"
  let luminosity ← device_interface.member "get_luminosity"
  let percentage ← device_interface.member "get_percentage"
  let temperature ← device_interface.member "get_temperature"
  let voltage ← device_interface.member "get_voltage"
  let timetoempty ← device_interface.member "get_time_to_empty"
  let timetofull ← device_interface.member "get_time_to_full"
  let updatetime ← device_interface.member "get_update_time"
  let iconname ← device_interface.member "get_icon_name"
  let model ← device_interface.member "get_model"
  let nativepath ← device_interface.member "get_native_path"
  let serial ← device_interface.member "get_serial"
  let vendor ← device_interface.member "get_vendor"
  let state ← device_interface.member "get_state"
  let technology ← device_interface.member "get_technology"
  let battype ← device_interface.member "get_type"
  let warninglevel ← device_interface.member "get_warning_level"
  let batterylevel ← device_interface.member "get_battery_level"
  let threshold_start ← device_interface.member "get_charge_start_threshold"
  let threshold_end ← device_interface.member "get_charge_end_threshold"
  let is_threshold_enabled ← device_interface.member "get_charge_threshold_enabled"
  let is_threshold_supported ← device_interface.member "get_charge_threshold_supported"
  let is_threshold_setting_supported ← device_interface.member "get_charge_threshold_settings_supported"
  let voltage_min ← device_interface.member "get_voltage_min_design"
  let voltage_max ← device_interface.member "get_voltage_max_design"
  let capacity_level ← device_interface.member "get_capacity_level"
  pure [("NativePath", nativepath),
        ("Vendor", vendor),
        ("Model", model),
        ("Serial", serial),
        ("UpdateTime", updatetime),
        ("Type", battype),
        ("PowerSupply", powersupply),
        ("HasHistory", hasHistory),
        ("HasStatistics", hasStatistics),
        ("Online", online),
        ("Energy", energy),
        ("EnergyEmpty", energyempty),
        ("EnergyFull", energyfull),
        ("EnergyFullDesign", energyfulldesign),
        ("EnergyRate", energyrate),
        ("Voltage", voltage),
        ("ChargeCycles", chargecycles),
        ("Luminosity", luminosity),
        ("TimeToEmpty", timetoempty),
        ("TimeToFull", timetofull),
        ("Percentage", percentage),
        ("Temperature", temperature),
        ("IsPresent", isPresent),
        ("State", state),
        ("IsRechargeable", isRechargable),
        ("Capacity", capacity),
        ("Technology", technology),
        ("WarningLevel", warninglevel),
        ("BatteryLevel", batterylevel),
        ("IconName", iconname),
        ("ChargeStartThreshold", threshold_start),
        ("ChargeEndThreshold", threshold_end),
        ("ChargeThresholdEnabled", is_threshold_enabled),
        ("ChargeThresholdSupported", is_threshold_supported),
        ("ChargeThresholdSettingsSupported", is_threshold_setting_supported),
        ("VoltageMinDesign", voltage_min),
        ("VoltageMaxDesign", voltage_max),
        ("CapacityLevel", capacity_level)]

/-- The 38 accessor names read by get_full_device_information, in the
order the source awaits them. -/
def fullInfoAccessors : List String :=
  ["get_has_history", "get_has_statistics", "get_is_present",
   "get_is_rechargeable", "get_online", "get_power_supply",
   "get_capacity", "get_charge_cycles", "get_energy",
   "get_energy_empty", "get_energy_full", "get_energy_full_design",
   "get_energy_rate", "get_luminosity", "get_percentage",
   "get_temperature", "get_voltage", "get_time_to_empty",
   "get_time_to_full", "get_update_time", "get_icon_name",
   "get_model", "get_native_path", "get_serial", "get_vendor",
   "get_state", "get_technology", "get_type", "get_warning_level",
   "get_battery_level", "get_charge_start_threshold",
   "get_charge_end_threshold", "get_charge_threshold_enabled",
   "get_charge_threshold_supported",
   "get_charge_threshold_settings_supported",
   "get_voltage_min_design", "get_voltage_max_design",
   "get_capacity_level"]

/-- Specification-side snapshot shape: the record the spec documents for
a device whose property named by each accessor holds the value vals of
that accessor, every documented field populated from the corresponding
independently read property. The source operation is compared against
this table. -/
def expected_snapshot (vals : String → PyValue) : List (String × PyValue) :=
  [("NativePath", vals "get_native_path"),
   ("Vendor", vals "get_vendor"),
   ("Model", vals "get_model"),
   ("Serial", vals "get_serial"),
   ("UpdateTime", vals "get_update_time"),
   ("Type", vals "get_type"),
   ("PowerSupply", vals "get_power_supply"),
   ("HasHistory", vals "get_has_history"),
   ("HasStatistics", vals "get_has_statistics"),
   ("Online", vals "get_online"),
   ("Energy", vals "get_energy"),
   ("EnergyEmpty", vals "get_energy_empty"),
   ("EnergyFull", vals "get_energy_full"),
   ("EnergyFullDesign", vals "get_energy_full_design"),
   ("EnergyRate", vals "get_energy_rate"),
   ("Voltage", vals "get_voltage"),
   ("ChargeCycles", vals "get_charge_cycles"),
   ("Luminosity", vals "get_luminosity"),
   ("TimeToEmpty", vals "get_time_to_empty"),
   ("TimeToFull", vals "get_time_to_full"),
   ("Percentage", vals "get_percentage"),
   ("Temperature", vals "get_temperature"),
   ("IsPresent", vals "get_is_present"),
   ("State", vals "get_state"),
   ("IsRechargeable", vals "get_is_rechargeable"),
   ("Capacity", vals "get_capacity"),
   ("Technology", vals "get_technology"),
   ("WarningLevel", vals "get_warning_level"),
   ("BatteryLevel", vals "get_battery_level"),
   ("IconName", vals "get_icon_name"),
   ("ChargeStartThreshold", vals "get_charge_start_threshold"),
   ("ChargeEndThreshold", vals "get_charge_end_threshold"),
   ("ChargeThresholdEnabled", vals "get_charge_threshold_enabled"),
   ("ChargeThresholdSupported", vals "get_charge_threshold_supported"),
   ("ChargeThresholdSettingsSupported", vals "get_charge_threshold_settings_supported"),
   ("VoltageMinDesign", vals "get_voltage_min_design"),
   ("VoltageMaxDesign", vals "get_voltage_max_design"),
   ("CapacityLevel", vals "get_capacity_level")]

/-! ### Concrete bus environments used as test fixtures -/

/-- A bus whose introspection of every path yields the same node. -/
def constBus (ifaces : List (String × DBusInterface)) : MessageBus :=
  { introspect := fun _service _path => Except.ok { interfaces := ifaces } }

/-- A bus on which every introspection fails with a transport error. -/
def failBus : MessageBus :=
  { introspect := fun _service _path => Except.error PyError.transportError }

/-- A device interface whose only readable property is State, holding the
raw code c. -/
def stateProps (c : Int) : DBusInterface :=
  { member := fun name =>
      if name = "get_state" then Except.ok (PyValue.int c)
      else Except.error PyError.transportError }

/-- A connected wrapper whose bus exposes one device interface on every
path. -/
def deviceWrapper (dev : DBusInterface) : UPowerWrapper :=
  { bus := some (constBus [(UPOWER_DEVICE_IFACE, dev)]) }

/-- A connected wrapper whose bus exposes one manager interface on every
path. -/
def managerWrapper (mgr : DBusInterface) : UPowerWrapper :=
  { bus := some (constBus [(UPOWER_MANAGER_IFACE, mgr)]) }

/-! ### Generic lemmas about the Except monad embedding -/

/-- Binding a successful Except computation applies the continuation. -/
theorem exceptOkBind {ε α β : Type} (a : α) (f : α → Except ε β) :
    (Except.ok a : Except ε α) >>= f = f a := rfl

/-- Binding a failed Except computation propagates the failure. -/
theorem exceptErrorBind {ε α β : Type} (e : ε) (f : α → Except ε β) :
    (Except.error e : Except ε α) >>= f = Except.error e := rfl

/-- A bind chain succeeds exactly when its head succeeds and the
continuation succeeds on the produced value. -/
theorem exceptBindOkIff {ε α β : Type} {x : Except ε α} {f : α → Except ε β} {b : β} :
    x >>= f = Except.ok b ↔ ∃ a, x = Except.ok a ∧ f a = Except.ok b := by
  cases x <;> simp [Bind.bind, Except.bind]

/-! ### Shared helper lemmas -/

/-- Casting an integer into the rationals preserves equality with 1. -/
theorem intCastRatEqOne (c : Int) : ((c : Rat) = 1) ↔ (c = 1) :=
  ⟨fun h => by exact_mod_cast h, fun h => by exact_mod_cast h⟩

/-- The state == 1 comparison on a raw integer code is integer equality
with 1. -/
theorem pyEqOne_int (c : Int) : pyEqOne (PyValue.int c) = decide (c = 1) := by
  change decide ((c : Rat) = 1) = decide (c = 1)
  exact decide_eq_decide.mpr (intCastRatEqOne c)

/-- On a device whose State property holds an unmapped code,
get_device_state raises KeyError at that code. -/
theorem get_device_state_out_of_range (obj : String) (c : Int) (h : c < 0 ∨ 6 < c) :
    (deviceWrapper (stateProps c)).get_device_state obj
      = Except.error (PyError.keyError c) := by
  change dict_getitem STATE_MAP c = Except.error (PyError.keyError c)
  unfold dict_getitem STATE_MAP
  split_ifs <;> first | (exfalso; omega) | rfl

/-- Claim C1: for every state code 0 to 6 the device state query returns
the documented label, and for every code outside that range it fails
with a KeyError instead of returning a default label. -/
theorem get_device_state_total_on_documented_codes (obj : String) (c : Int) :
    ((deviceWrapper (stateProps 0)).get_device_state obj = Except.ok "Unknown") ∧
    ((deviceWrapper (stateProps 1)).get_device_state obj = Except.ok "Charging") ∧
    ((deviceWrapper (stateProps 2)).get_device_state obj = Except.ok "Discharging") ∧
    ((deviceWrapper (stateProps 3)).get_device_state obj = Except.ok "Empty") ∧
    ((deviceWrapper (stateProps 4)).get_device_state obj = Except.ok "Fully Charged") ∧
    ((deviceWrapper (stateProps 5)).get_device_state obj = Except.ok "Pending Charge") ∧
    ((deviceWrapper (stateProps 6)).get_device_state obj = Except.ok "Pending Discharge") ∧
    (c < 0 ∨ 6 < c →
      (deviceWrapper (stateProps c)).get_device_state obj
        = Except.error (PyError.keyError c)) :=
  ⟨rfl, rfl, rfl, rfl, rfl, rfl, rfl, get_device_state_out_of_range obj c⟩

/-- Witness for claim C1 at the concrete out-of-range code 7. -/
theorem get_device_state_total_on_documented_codes_witness :
    ((7 : Int) < 0 ∨ 6 < (7 : Int)) ∧
    (deviceWrapper (stateProps 7)).get_device_state "b"
      = Except.error (PyError.keyError 7) :=
  ⟨Or.inr (by norm_num),
   (get_device_state_total_on_documented_codes "b" 7).2.2.2.2.2.2.2
     (Or.inr (by norm_num))⟩

/-- Claim C9: is_charging performs no range validation: for a resolved
device interface whose raw code lies outside 0 to 6 it returns false
without failing, while get_device_state fails with KeyError on the very
same code. -/
theorem is_charging_skips_range_validation (obj : String) (c : Int) (h : c < 0 ∨ 6 < c) :
    (deviceWrapper (stateProps c)).is_charging obj = Except.ok false ∧
    (deviceWrapper (stateProps c)).get_device_state obj
      = Except.error (PyError.keyError c) := by
  constructor
  · change Except.ok (pyEqOne (PyValue.int c)) = Except.ok false
    rw [pyEqOne_int, decide_eq_false (by omega : ¬ c = 1)]
  · exact get_device_state_out_of_range obj c h

/-- Witness for claim C9 at the concrete out-of-range code 7. -/
theorem is_charging_skips_range_validation_witness :
    ((7 : Int) < 0 ∨ 6 < (7 : Int)) ∧
    ((deviceWrapper (stateProps 7)).is_charging "b" = Except.ok false ∧
     (deviceWrapper (stateProps 7)).get_device_state "b"
       = Except.error (PyError.keyError 7)) :=
  ⟨Or.inr (by norm_num),
   is_charging_skips_range_validation "b" 7 (Or.inr (by norm_num))⟩

/-- Claim C2: the charging test reads the raw code and compares it with
1 for every documented code, but when the device interface cannot be
resolved the resolution error propagates out of is_charging instead of
the documented false: the defensive else branch of the source is
unreachable because _get_interface raises rather than returning None.
Evaluated at a connected bus whose device object implements no
interface, is_charging fails with InterfaceNotFoundError. -/
theorem is_charging_propagates_unresolved_interface :
    ((UPowerWrapper.mk (some (constBus []))).is_charging
        "/org/freedesktop/UPower/devices/battery_BAT0"
      = Except.error PyError.interfaceNotFoundError) ∧
    ((deviceWrapper (stateProps 0)).is_charging "b" = Except.ok false) ∧
    ((deviceWrapper (stateProps 1)).is_charging "b" = Except.ok true) ∧
    ((deviceWrapper (stateProps 2)).is_charging "b" = Except.ok false) ∧
    ((deviceWrapper (stateProps 3)).is_charging "b" = Except.ok false) ∧
    ((deviceWrapper (stateProps 4)).is_charging "b" = Except.ok false) ∧
    ((deviceWrapper (stateProps 5)).is_charging "b" = Except.ok false) ∧
    ((deviceWrapper (stateProps 6)).is_charging "b" = Except.ok false) :=
  ⟨rfl, rfl, rfl, rfl, rfl, rfl, rfl, rfl⟩

/-- Claim C3: whenever resolution of the optional wakeups interface
fails, for any reason at all, the three wakeups queries return their
documented defaults and none of them raises. -/
theorem wakeups_default_on_resolution_failure (self : UPowerWrapper) (e : PyError)
    (hfail : self._get_interface WAKEUPS_PATH IFACE_WAKEUPS = Except.error e) :
    self.has_wakeup_capabilities = Except.ok (PyValue.bool false) ∧
    self.get_wakeup_data = Except.ok (PyValue.list []) ∧
    self.get_wakeup_total = Except.ok (PyValue.int 0) := by
  have hw : self._get_wakeups_interface = Option.none := by
    unfold UPowerWrapper._get_wakeups_interface
    rw [hfail]
  refine ⟨?_, ?_, ?_⟩ <;>
    simp [UPowerWrapper.has_wakeup_capabilities, UPowerWrapper.get_wakeup_data,
          UPowerWrapper.get_wakeup_total, hw]

/-- Witness for claim C3: a connected bus on which every introspection
fails with a transport error. -/
theorem wakeups_default_on_resolution_failure_witness :
    ((UPowerWrapper.mk (some failBus))._get_interface WAKEUPS_PATH IFACE_WAKEUPS
        = Except.error PyError.transportError) ∧
    ((UPowerWrapper.mk (some failBus)).has_wakeup_capabilities
        = Except.ok (PyValue.bool false) ∧
     (UPowerWrapper.mk (some failBus)).get_wakeup_data
        = Except.ok (PyValue.list []) ∧
     (UPowerWrapper.mk (some failBus)).get_wakeup_total
        = Except.ok (PyValue.int 0)) :=
  ⟨rfl, wakeups_default_on_resolution_failure (UPowerWrapper.mk (some failBus))
          PyError.transportError rfl⟩

/-- Claim C10: before connect the strict resolver raises the
not-connected RuntimeError, yet all three wakeups queries swallow even
that usage error and return their defaults, because the graceful
resolver catches every exception. -/
theorem wakeups_swallow_not_connected :
    (UPowerWrapper.init._get_interface WAKEUPS_PATH IFACE_WAKEUPS
        = Except.error (PyError.runtimeError "Bus is not connected")) ∧
    UPowerWrapper.init.has_wakeup_capabilities = Except.ok (PyValue.bool false) ∧
    UPowerWrapper.init.get_wakeup_data = Except.ok (PyValue.list []) ∧
    UPowerWrapper.init.get_wakeup_total = Except.ok (PyValue.int 0) :=
  ⟨rfl, rfl, rfl, rfl⟩

/-- Claim C6: every operation that requires the manager or the device
interface fails with the not-connected RuntimeError when the bus handle
is absent; the statement holds for every wrapper whose bus attribute is
None, independently of any remote behaviour, so no remote communication
is involved. -/
theorem queries_require_connection (self : UPowerWrapper) (obj : String)
    (h : self.bus = Option.none) :
    self.get_devices = Except.error (PyError.runtimeError "Bus is not connected") ∧
    self.get_display_device = Except.error (PyError.runtimeError "Bus is not connected") ∧
    self.get_critical_action = Except.error (PyError.runtimeError "Bus is not connected") ∧
    self.get_manager_status = Except.error (PyError.runtimeError "Bus is not connected") ∧
    self.is_lid_present = Except.error (PyError.runtimeError "Bus is not connected") ∧
    self.is_lid_closed = Except.error (PyError.runtimeError "Bus is not connected") ∧
    self.on_battery = Except.error (PyError.runtimeError "Bus is not connected") ∧
    self.is_present = Except.error (PyError.runtimeError "Bus is not connected") ∧
    self.get_device_percentage obj = Except.error (PyError.runtimeError "Bus is not connected") ∧
    self.is_charging obj = Except.error (PyError.runtimeError "Bus is not connected") ∧
    self.get_device_state obj = Except.error (PyError.runtimeError "Bus is not connected") ∧
    self.get_full_device_information obj
      = Except.error (PyError.runtimeError "Bus is not connected") := by
  have hi : ∀ p i, self._get_interface p i
      = Except.error (PyError.runtimeError "Bus is not connected") := by
    intro p i
    unfold UPowerWrapper._get_interface
    rw [h]
  refine ⟨?_, ?_, ?_, ?_, ?_, ?_, ?_, ?_, ?_, ?_, ?_, ?_⟩ <;>
    simp [UPowerWrapper.get_devices, UPowerWrapper.get_display_device,
          UPowerWrapper.get_critical_action, UPowerWrapper.get_manager_status,
          UPowerWrapper.is_lid_present, UPowerWrapper.is_lid_closed,
          UPowerWrapper.on_battery, UPowerWrapper.is_present,
          UPowerWrapper.get_device_percentage, UPowerWrapper.is_charging,
          UPowerWrapper.get_device_state, UPowerWrapper.get_full_device_information,
          hi, exceptErrorBind]

/-- Witness for claim C6: a freshly constructed wrapper has no bus, and
for example get_devices then fails with the not-connected error. -/
theorem queries_require_connection_witness :
    (UPowerWrapper.init.bus = Option.none) ∧
    UPowerWrapper.init.get_devices
      = Except.error (PyError.runtimeError "Bus is not connected") :=
  ⟨rfl, (queries_require_connection UPowerWrapper.init "b" rfl).1⟩

/-- If the full snapshot operation succeeds, every one of its 38
property reads succeeded on the resolved device interface. -/
theorem full_info_ok_all_reads_ok {self : UPowerWrapper} {obj : String}
    {iface : DBusInterface} {tbl : List (String × PyValue)}
    (hres : self._get_interface obj UPOWER_DEVICE_IFACE = Except.ok iface)
    (hok : self.get_full_device_information obj = Except.ok tbl) :
    ∀ name ∈ fullInfoAccessors, ∃ v, iface.member name = Except.ok v := by
  unfold UPowerWrapper.get_full_device_information at hok
  rw [hres] at hok
  simp only [exceptOkBind, exceptBindOkIff] at hok
  obtain ⟨v1, h1, v2, h2, v3, h3, v4, h4, v5, h5, v6, h6, v7, h7, v8, h8, v9, h9,
          v10, h10, v11, h11, v12, h12, v13, h13, v14, h14, v15, h15, v16, h16,
          v17, h17, v18, h18, v19, h19, v20, h20, v21, h21, v22, h22, v23, h23,
          v24, h24, v25, h25, v26, h26, v27, h27, v28, h28, v29, h29, v30, h30,
          v31, h31, v32, h32, v33, h33, v34, h34, v35, h35, v36, h36, v37, h37,
          v38, h38, -⟩ := hok
  intro name hname
  simp only [fullInfoAccessors, List.mem_cons, List.not_mem_nil, or_false] at hname
  rcases hname with rfl | rfl | rfl | rfl | rfl | rfl | rfl | rfl | rfl | rfl | rfl |
    rfl | rfl | rfl | rfl | rfl | rfl | rfl | rfl | rfl | rfl | rfl | rfl | rfl |
    rfl | rfl | rfl | rfl | rfl | rfl | rfl | rfl | rfl | rfl | rfl | rfl | rfl | rfl
  exacts [⟨v1, h1⟩, ⟨v2, h2⟩, ⟨v3, h3⟩, ⟨v4, h4⟩, ⟨v5, h5⟩, ⟨v6, h6⟩, ⟨v7, h7⟩,
          ⟨v8, h8⟩, ⟨v9, h9⟩, ⟨v10, h10⟩, ⟨v11, h11⟩, ⟨v12, h12⟩, ⟨v13, h13⟩,
          ⟨v14, h14⟩, ⟨v15, h15⟩, ⟨v16, h16⟩, ⟨v17, h17⟩, ⟨v18, h18⟩, ⟨v19, h19⟩,
          ⟨v20, h20⟩, ⟨v21, h21⟩, ⟨v22, h22⟩, ⟨v23, h23⟩, ⟨v24, h24⟩, ⟨v25, h25⟩,
          ⟨v26, h26⟩, ⟨v27, h27⟩, ⟨v28, h28⟩, ⟨v29, h29⟩, ⟨v30, h30⟩, ⟨v31, h31⟩,
          ⟨v32, h32⟩, ⟨v33, h33⟩, ⟨v34, h34⟩, ⟨v35, h35⟩, ⟨v36, h36⟩, ⟨v37, h37⟩,
          ⟨v38, h38⟩]

/-- A device interface on which every remote read fails. -/
def allFailDev : DBusInterface :=
  { member := fun _ => Except.error PyError.transportError }

/-- Claim C4: if any single property read inside the full snapshot
operation fails, the whole operation fails and no record is returned at
all, so no record with missing or null fields is ever produced. -/
theorem full_snapshot_fails_on_any_read_failure (self : UPowerWrapper) (obj : String)
    (iface : DBusInterface) (name : String) (e : PyError)
    (hres : self._get_interface obj UPOWER_DEVICE_IFACE = Except.ok iface)
    (hmem : name ∈ fullInfoAccessors)
    (hfail : iface.member name = Except.error e) :
    ∃ err, self.get_full_device_information obj = Except.error err := by
  cases hout : self.get_full_device_information obj with
  | error err => exact ⟨err, rfl⟩
  | ok tbl =>
      obtain ⟨v, hv⟩ := full_info_ok_all_reads_ok hres hout name hmem
      rw [hfail] at hv
      exact absurd hv (by simp)

/-- Witness for claim C4: a resolvable device on which the percentage
read fails makes the snapshot operation fail. -/
theorem full_snapshot_fails_on_any_read_failure_witness :
    ("get_percentage" ∈ fullInfoAccessors) ∧
    ∃ err, (deviceWrapper allFailDev).get_full_device_information "b"
      = Except.error err :=
  ⟨by simp [fullInfoAccessors],
   full_snapshot_fails_on_any_read_failure (deviceWrapper allFailDev) "b" allFailDev
     "get_percentage" PyError.transportError rfl (by simp [fullInfoAccessors]) rfl⟩

/-- Claim C5: the manager status call returns a record with exactly the
four documented fields, each equal to the value of its corresponding
independently read remote property; the environment is pure, so the
order in which the four reads complete cannot influence the record. -/
theorem manager_status_four_independent_fields (self : UPowerWrapper)
    (iface : DBusInterface) (v1 v2 v3 v4 : PyValue)
    (hres : self._get_interface UPOWER_PATH UPOWER_MANAGER_IFACE = Except.ok iface)
    (h1 : iface.member "get_on_battery" = Except.ok v1)
    (h2 : iface.member "get_lid_is_closed" = Except.ok v2)
    (h3 : iface.member "get_daemon_version" = Except.ok v3)
    (h4 : iface.member "get_lid_is_present" = Except.ok v4) :
    self.get_manager_status = Except.ok
      [("on_battery", v1), ("lid_closed", v2), ("daemon_ver", v3), ("lid_present", v4)] := by
  simp [UPowerWrapper.get_manager_status, hres, h1, h2, h3, h4, exceptOkBind,
        pure, Except.pure]

/-- A manager interface fixture with fixed property values. -/
def mgrProps : DBusInterface :=
  { member := fun name =>
      if name = "get_on_battery" then Except.ok (PyValue.bool true)
      else if name = "get_lid_is_closed" then Except.ok (PyValue.bool false)
      else if name = "get_daemon_version" then Except.ok (PyValue.str "1.90.2")
      else if name = "get_lid_is_present" then Except.ok (PyValue.bool true)
      else if name = "get_is_present" then Except.ok (PyValue.int 1)
      else Except.error PyError.transportError }

/-- Witness for claim C5 on the concrete manager fixture. -/
theorem manager_status_four_independent_fields_witness :
    ((managerWrapper mgrProps)._get_interface UPOWER_PATH UPOWER_MANAGER_IFACE
        = Except.ok mgrProps) ∧
    (managerWrapper mgrProps).get_manager_status = Except.ok
      [("on_battery", PyValue.bool true), ("lid_closed", PyValue.bool false),
       ("daemon_ver", PyValue.str "1.90.2"), ("lid_present", PyValue.bool true)] :=
  ⟨rfl, manager_status_four_independent_fields (managerWrapper mgrProps) mgrProps
          _ _ _ _ rfl rfl rfl rfl rfl⟩

/-- Claim C7: over a device exposing all documented properties with
fixed values, the full snapshot succeeds, returns the spec-side record
with every documented field populated, and its Percentage and State
fields agree with the single-field queries over the same remote values. -/
theorem full_snapshot_refines_single_queries (self : UPowerWrapper) (obj : String)
    (iface : DBusInterface) (vals : String → PyValue)
    (hres : self._get_interface obj UPOWER_DEVICE_IFACE = Except.ok iface)
    (hall : ∀ name, iface.member name = Except.ok (vals name)) :
    self.get_full_device_information obj = Except.ok (expected_snapshot vals) ∧
    (expected_snapshot vals).lookup "Percentage" = some (vals "get_percentage") ∧
    self.get_device_percentage obj = Except.ok (vals "get_percentage") ∧
    (expected_snapshot vals).lookup "State" = some (vals "get_state") ∧
    self.is_charging obj = Except.ok (pyEqOne (vals "get_state")) := by
  refine ⟨?_, rfl, ?_, rfl, ?_⟩
  · simp [UPowerWrapper.get_full_device_information, hres, hall, exceptOkBind,
          expected_snapshot, pure, Except.pure]
  · simp [UPowerWrapper.get_device_percentage, hres, hall, exceptOkBind]
  · simp [UPowerWrapper.is_charging, hres, hall, exceptOkBind,
          DBusInterface.truthy, pure, Except.pure]

/-- Remote property values for the snapshot witness device. -/
def snapshotVals : String → PyValue := fun name =>
  if name = "get_percentage" then PyValue.float 87
  else if name = "get_state" then PyValue.int 2
  else PyValue.str name

/-- A device interface on which every read succeeds with snapshotVals. -/
def allOkDev : DBusInterface :=
  { member := fun name => Except.ok (snapshotVals name) }

/-- Witness for claim C7 on the concrete all-properties device. -/
theorem full_snapshot_refines_single_queries_witness :
    ((deviceWrapper allOkDev)._get_interface "b" UPOWER_DEVICE_IFACE
        = Except.ok allOkDev) ∧
    (deviceWrapper allOkDev).get_full_device_information "b"
        = Except.ok (expected_snapshot snapshotVals) ∧
    (deviceWrapper allOkDev).get_device_percentage "b"
        = Except.ok (PyValue.float 87) := by
  have h := full_snapshot_refines_single_queries (deviceWrapper allOkDev) "b"
    allOkDev snapshotVals rfl (fun _ => rfl)
  exact ⟨rfl, h.1, h.2.2.1⟩

/-- A device interface fixture whose percentage property is 87.0. -/
def pctDev : DBusInterface :=
  { member := fun name =>
      if name = "get_percentage" then Except.ok (PyValue.float 87)
      else Except.error PyError.transportError }

/-- A connected wrapper whose bus exposes both the manager and the
device interface on every path. -/
def bothWrapper : UPowerWrapper :=
  { bus := some (constBus [(UPOWER_MANAGER_IFACE, mgrProps), (UPOWER_DEVICE_IFACE, pctDev)]) }

/-- Claim C8: the four lid and battery boolean queries each perform one
property read coerced to a strict boolean with the builtin bool, so any
raw remote value yields exactly true or exactly false, and the
percentage query returns the raw float property value unconverted. -/
theorem boolean_queries_coerce_and_percentage_raw (self : UPowerWrapper)
    (mgr dev : DBusInterface) (v1 v2 v3 v4 w : PyValue) (obj : String)
    (hmgr : self._get_interface UPOWER_PATH UPOWER_MANAGER_IFACE = Except.ok mgr)
    (h1 : mgr.member "get_lid_is_present" = Except.ok v1)
    (h2 : mgr.member "get_lid_is_closed" = Except.ok v2)
    (h3 : mgr.member "get_on_battery" = Except.ok v3)
    (h4 : mgr.member "get_is_present" = Except.ok v4)
    (hdev : self._get_interface obj UPOWER_DEVICE_IFACE = Except.ok dev)
    (hw : dev.member "get_percentage" = Except.ok w) :
    self.is_lid_present = Except.ok (py_bool v1) ∧
    self.is_lid_closed = Except.ok (py_bool v2) ∧
    self.on_battery = Except.ok (py_bool v3) ∧
    self.is_present = Except.ok (py_bool v4) ∧
    self.get_device_percentage obj = Except.ok w := by
  refine ⟨?_, ?_, ?_, ?_, ?_⟩ <;>
    simp [UPowerWrapper.is_lid_present, UPowerWrapper.is_lid_closed,
          UPowerWrapper.on_battery, UPowerWrapper.is_present,
          UPowerWrapper.get_device_percentage, hmgr, hdev, h1, h2, h3, h4, hw,
          exceptOkBind, pure, Except.pure]

/-- Witness for claim C8: the strict booleans come out of raw bool and
raw int property values, and 87.0 comes back as 87.0. -/
theorem boolean_queries_coerce_and_percentage_raw_witness :
    (mgrProps.member "get_is_present" = Except.ok (PyValue.int 1)) ∧
    bothWrapper.is_lid_present = Except.ok true ∧
    bothWrapper.is_lid_closed = Except.ok false ∧
    bothWrapper.on_battery = Except.ok true ∧
    bothWrapper.is_present = Except.ok true ∧
    bothWrapper.get_device_percentage "b" = Except.ok (PyValue.float 87) := by
  have h := boolean_queries_coerce_and_percentage_raw bothWrapper mgrProps pctDev
    _ _ _ _ _ "b" rfl rfl rfl rfl rfl rfl rfl
  exact ⟨rfl, h.1, h.2.1, h.2.2.1, h.2.2.2.1, h.2.2.2.2⟩
